import Mathlib

/-
Verification development for the Circles users ingestion and cache-maintenance
engine (packages/plugin-discover-connection/src/services/circlesUsers.ts).

Shallow embedding conventions:
- JavaScript numbers that only ever hold non-negative integers (trust counts,
  block numbers, timestamps, list lengths) are modelled as Nat.
- JavaScript string comparison with === is String equality; the JS call
  s.toLowerCase() is modelled character-wise by jsToLowerCase (String equality
  in Lean is equality of the underlying character list, so comparing the
  jsToLowerCase images is exactly comparing the lowercased strings).
- The remote endpoint is modelled as an oracle: the paging loops consume a list
  of page results, one entry per call to queryRegisteredUsersWithTrustData,
  where an entry is either a thrown error or a page (users plus optional next
  cursor). The cache store (three keys: circles-users-data,
  circles-users-last-update, circles-users-last-cursor) is modelled as an
  explicit CacheState record threaded through the operations; Date.now() is an
  explicit now parameter.
-/

namespace CirclesUsers

/-- Model of the JS expression s.toLowerCase(): the lowercased character list.
Two strings have equal toLowerCase images iff their jsToLowerCase lists are
equal, since String equality is equality of the character data. -/
def jsToLowerCase (s : String) : List Char :=
  s.data.map Char.toLower

/-- The three-part pagination cursor (interface PaginationCursor). -/
structure PaginationCursor where
  blockNumber : Nat
  transactionIndex : Nat
  logIndex : Nat
deriving Repr, DecidableEq

/-- Cached user record (interface CirclesUser). -/
structure CirclesUser where
  avatar : String
  incomingTrustCount : Nat
  outgoingTrustCount : Nat
  isVerified : Bool
  status : String
  timestamp : Nat
deriving Repr, DecidableEq

/-- Snapshot stored under the circles-users-data key (interface CirclesUsersCache). -/
structure CirclesUsersCache where
  users : List CirclesUser
  totalCount : Nat
  lastUpdate : Nat
deriving Repr, DecidableEq

/-- Metadata stored under the circles-users-last-update key. -/
structure CirclesUsersLastUpdate where
  timestamp : Nat
  usersCount : Nat
deriving Repr, DecidableEq

/-- Cursor record stored under the circles-users-last-cursor key. -/
structure CirclesUsersLastCursor where
  blockNumber : Nat
  transactionIndex : Nat
  logIndex : Nat
  timestamp : Nat
  usersCount : Nat
deriving Repr, DecidableEq

/-- The three cache keys the service reads and writes, as one explicit state. -/
structure CacheState where
  data : Option CirclesUsersCache
  lastUpdate : Option CirclesUsersLastUpdate
  lastCursor : Option CirclesUsersLastCursor
deriving Repr, DecidableEq

/-- VERIFICATION_THRESHOLD from the service (3 or more trusts means verified). -/
def VERIFICATION_THRESHOLD : Nat := 3

/-- Result of checkUserStatus (interface UserStatusCheck); needsTrusts is
optional in the source, so it is an Option here. -/
structure UserStatusCheck where
  found : Bool
  verified : Bool
  registered : Bool
  trustCount : Nat
  needsTrusts : Option Nat
deriving Repr, DecidableEq

/-- Model of getCachedCirclesUsers: the users of the stored snapshot, or the
empty list when no snapshot is cached. -/
def getCachedCirclesUsers (st : CacheState) : List CirclesUser :=
  match st.data with
  | none => []
  | some c => c.users

/-- Model of checkUserStatus: case-insensitive lookup in the cached users,
then the needed-trusts computation Math.max(0, THRESHOLD - count) (Nat
subtraction is exactly that truncation). -/
def checkUserStatus (users : List CirclesUser) (walletAddress : String) : UserStatusCheck :=
  match users.find? (fun u => jsToLowerCase u.avatar == jsToLowerCase walletAddress) with
  | none => ⟨false, false, false, 0, none⟩
  | some u =>
      ⟨true, u.isVerified, true, u.incomingTrustCount,
       some (if u.isVerified then 0 else VERIFICATION_THRESHOLD - u.incomingTrustCount)⟩

/-- One raw row of the Avatars query after the column zip: the fields the
enrichment loop of queryRegisteredUsersWithTrustData reads. -/
structure AvatarRow where
  avatar : String
  blockNumber : Nat
  transactionIndex : Nat
  logIndex : Nat
  timestamp : Nat
deriving Repr, DecidableEq

/-- Per-row enrichment of queryRegisteredUsersWithTrustData: build the
CirclesUser from the trust counts returned by getTrustCounts (given here as an
oracle trustOf) and classify against VERIFICATION_THRESHOLD. The source falls
back to Date.now() when the row timestamp is falsy (0). -/
def classifyRow (trustOf : String → Nat × Nat) (nowTs : Nat) (r : AvatarRow) : CirclesUser :=
  let trustCounts := trustOf r.avatar
  ⟨r.avatar,
   trustCounts.1,
   trustCounts.2,
   decide (VERIFICATION_THRESHOLD ≤ trustCounts.1),
   if VERIFICATION_THRESHOLD ≤ trustCounts.1 then "verified" else "registered",
   if r.timestamp == 0 then nowTs else r.timestamp⟩

/-- Row-processing part of queryRegisteredUsersWithTrustData: map every row
through enrichment; the returned nextCursor is the block/tx/log triple of the
last processed row when the page holds exactly limit rows, and none otherwise
(also none on an empty page, the early return of the source). -/
def processRows (trustOf : String → Nat × Nat) (nowTs limit : Nat) (rows : List AvatarRow) :
    List CirclesUser × Option PaginationCursor :=
  match rows.getLast? with
  | none => ([], none)
  | some lastRow =>
      (rows.map (classifyRow trustOf nowTs),
       if rows.length == limit then
         some ⟨lastRow.blockNumber, lastRow.transactionIndex, lastRow.logIndex⟩
       else none)

/-- Shape of one circles_query response as getTrustCounts consumes it: echoed
column names and positional rows (cells as strings). -/
structure TrustQueryResult where
  columns : List String
  rows : List (List String)
deriving Repr, DecidableEq

/-- Model of the JS expression v || d on numbers: d when v is 0, else v. -/
def jsOr (v d : Int) : Int :=
  if v == 0 then d else v

/-- Model of Array.prototype.indexOf: the index of the first occurrence, or -1. -/
def jsIndexOf (l : List String) (s : String) : Int :=
  match l.findIdx? (· == s) with
  | some i => (i : Int)
  | none => -1

/-- Model of row[i] on a possibly out-of-range or negative index: undefined is
none. -/
def cellAt (row : List String) (i : Int) : Option String :=
  if i < 0 then none else row[i.toNat]?

/-- The self-trust filter of getTrustCounts, applied to one direction: column
indices are computed as result.columns.indexOf(name) || fallback, and a row is
kept only when its truster cell differs from its trustee cell (JS !== on two
undefined cells is false, matching the Option equality here). -/
def validTrustRows (res : TrustQueryResult) : List (List String) :=
  let trusterIdx := jsOr (jsIndexOf res.columns "truster") 0
  let trusteeIdx := jsOr (jsIndexOf res.columns "trustee") 1
  res.rows.filter (fun row => !(cellAt row trusterIdx == cellAt row trusteeIdx))

/-- Model of getTrustCounts given the two query responses: the incoming count
and the outgoing count are the lengths of the filtered row lists. -/
def getTrustCounts (incomingRes outgoingRes : TrustQueryResult) : Nat × Nat :=
  ((validTrustRows incomingRes).length, (validTrustRows outgoingRes).length)

/-- The column list both trust queries request from the endpoint. -/
def requestedTrustColumns : List String := ["truster", "trustee", "timestamp"]

/-- C7: for every non-negative incomingCount, the record built by per-row
enrichment is verified iff incomingCount is at least 3, its status is the
string verified exactly when verified and registered otherwise, and
checkUserStatus on that cached record reports needed trusts 0 when verified
and max(0, 3 - incomingCount) when unverified (the Int equation states the
max-with-0 form explicitly). -/
theorem c7_classification_threshold
    (a : String) (inc outc bn ti li ts nowTs : Nat) :
    ((classifyRow (fun _ => (inc, outc)) nowTs ⟨a, bn, ti, li, ts⟩).isVerified = true ↔
      VERIFICATION_THRESHOLD ≤ inc) ∧
    (classifyRow (fun _ => (inc, outc)) nowTs ⟨a, bn, ti, li, ts⟩).status =
      (if (classifyRow (fun _ => (inc, outc)) nowTs ⟨a, bn, ti, li, ts⟩).isVerified
       then "verified" else "registered") ∧
    checkUserStatus [classifyRow (fun _ => (inc, outc)) nowTs ⟨a, bn, ti, li, ts⟩] a =
      ⟨true, decide (VERIFICATION_THRESHOLD ≤ inc), true, inc,
       some (if VERIFICATION_THRESHOLD ≤ inc then 0 else VERIFICATION_THRESHOLD - inc)⟩ ∧
    ((if VERIFICATION_THRESHOLD ≤ inc then 0 else VERIFICATION_THRESHOLD - inc : Nat) : Int) =
      (if VERIFICATION_THRESHOLD ≤ inc then 0 else max 0 (3 - (inc : Int))) := by
  by_cases h : VERIFICATION_THRESHOLD ≤ inc
  · refine ⟨by simp [classifyRow, h], by simp [classifyRow, h], ?_, by simp [h]⟩
    simp [checkUserStatus, List.find?, classifyRow, h]
  · refine ⟨by simp [classifyRow, h], by simp [classifyRow, h], ?_, ?_⟩
    · simp [checkUserStatus, List.find?, classifyRow, h]
    · simp only [if_neg h]
      have h3 : inc < 3 := by
        simpa [VERIFICATION_THRESHOLD] using Nat.lt_of_not_le h
      rw [max_eq_right (by omega : (0 : Int) ≤ 3 - (inc : Int))]
      simp only [VERIFICATION_THRESHOLD]
      omega

/-- C8: when the trust queries echo the requested column layout
(truster, trustee, timestamp), getTrustCounts counts in each direction exactly
the rows whose truster cell differs from their trustee cell; in particular
every self-trust row (truster equal to trustee) is excluded from both counts. -/
theorem c8_self_trust_excluded
    (incomingRes outgoingRes : TrustQueryResult)
    (hinc : incomingRes.columns = requestedTrustColumns)
    (hout : outgoingRes.columns = requestedTrustColumns) :
    (getTrustCounts incomingRes outgoingRes).1 =
      (incomingRes.rows.filter (fun row => !(row[0]? == row[1]?))).length ∧
    (getTrustCounts incomingRes outgoingRes).2 =
      (outgoingRes.rows.filter (fun row => !(row[0]? == row[1]?))).length ∧
    (∀ row ∈ incomingRes.rows, row[0]? = row[1]? → row ∉ validTrustRows incomingRes) ∧
    (∀ row ∈ outgoingRes.rows, row[0]? = row[1]? → row ∉ validTrustRows outgoingRes) := by
  have hstd : ∀ res : TrustQueryResult, res.columns = requestedTrustColumns →
      validTrustRows res = res.rows.filter (fun row => !(row[0]? == row[1]?)) := by
    intro res h
    have h0 : jsOr (jsIndexOf res.columns "truster") 0 = 0 := by
      rw [h]; rfl
    have h1 : jsOr (jsIndexOf res.columns "trustee") 1 = 1 := by
      rw [h]; rfl
    simp only [validTrustRows, h0, h1]
    rfl
  refine ⟨?_, ?_, ?_, ?_⟩
  · simp [getTrustCounts, hstd incomingRes hinc]
  · simp [getTrustCounts, hstd outgoingRes hout]
  · intro row _ heq
    rw [hstd incomingRes hinc]
    simp [List.mem_filter, heq]
  · intro row _ heq
    rw [hstd outgoingRes hout]
    simp [List.mem_filter, heq]

/-- Closed witness for c8_self_trust_excluded: a response containing one
self-trust row and one genuine trust row yields count 1, the self-trust row
being excluded. -/
theorem c8_self_trust_excluded_witness :
    (getTrustCounts ⟨requestedTrustColumns, [["0xA", "0xA", "5"], ["0xB", "0xA", "6"]]⟩
        ⟨requestedTrustColumns, [["0xA", "0xA", "7"]]⟩).1 = 1 ∧
    (getTrustCounts ⟨requestedTrustColumns, [["0xA", "0xA", "5"], ["0xB", "0xA", "6"]]⟩
        ⟨requestedTrustColumns, [["0xA", "0xA", "7"]]⟩).2 = 0 := by
  have h := c8_self_trust_excluded
    ⟨requestedTrustColumns, [["0xA", "0xA", "5"], ["0xB", "0xA", "6"]]⟩
    ⟨requestedTrustColumns, [["0xA", "0xA", "7"]]⟩ rfl rfl
  exact ⟨h.1.trans (by decide), h.2.1.trans (by decide)⟩

/-- In-place field update of mergeAndUpdateUsers: the existing record keeps its
avatar and receives the newly observed trust counts, verified flag, status and
timestamp. -/
def patchUser (e n : CirclesUser) : CirclesUser :=
  ⟨e.avatar, n.incomingTrustCount, n.outgoingTrustCount, n.isVerified, n.status, n.timestamp⟩

/-- The update condition of mergeAndUpdateUsers: the existing record is touched
only when its incoming trust count or verified flag differs from the new
observation. -/
def needsPatch (e n : CirclesUser) : Bool :=
  e.incomingTrustCount != n.incomingTrustCount || e.isVerified != n.isVerified

/-- Effect of processing one new observation against the current existing
list. The JS code looks the lowercased avatar up in a map built by inserting
the existing users in order, so the record that can be mutated is the LAST
existing record with that lowercased avatar; hence the recursion gives the
tail priority. Returns the possibly-updated list, whether a record with a
matching key exists, and whether an update was applied. -/
def applyNewUser : List CirclesUser → CirclesUser → List CirclesUser × Bool × Bool
  | [], _ => ([], false, false)
  | e :: rest, n =>
      let r := applyNewUser rest n
      if r.2.1 then (e :: r.1, true, r.2.2)
      else if jsToLowerCase e.avatar == jsToLowerCase n.avatar then
        if needsPatch e n then (patchUser e n :: rest, true, true)
        else (e :: rest, true, false)
      else (e :: rest, false, false)

/-- The update pass of mergeAndUpdateUsers: fold the new observations in order
over the existing list, counting how many observations caused an update. -/
def mergeLoop : List CirclesUser → List CirclesUser → List CirclesUser × Nat
  | users, [] => (users, 0)
  | users, n :: ns =>
      let r := applyNewUser users n
      let rec' := mergeLoop r.1 ns
      (rec'.1, (if r.2.2 then 1 else 0) + rec'.2)

/-- Model of mergeAndUpdateUsers: apply in-place updates for observations whose
lowercased avatar matches an existing record, append observations with no
case-insensitive match in the original existing list, and build the snapshot
and last-update records written to the cache. Returns the snapshot, the
last-update metadata and the updated-record count the method returns. -/
def mergeAndUpdateUsers (existingUsers newUsers : List CirclesUser) (now : Nat) :
    CirclesUsersCache × CirclesUsersLastUpdate × Nat :=
  let r := mergeLoop existingUsers newUsers
  let trulyNewUsers := newUsers.filter
    (fun u => !(existingUsers.any (fun e => jsToLowerCase e.avatar == jsToLowerCase u.avatar)))
  let mergedUsers := r.1 ++ trulyNewUsers
  (⟨mergedUsers, mergedUsers.length, now⟩, ⟨now, mergedUsers.length⟩, r.2)

theorem applyNewUser_length (users : List CirclesUser) (n : CirclesUser) :
    (applyNewUser users n).1.length = users.length := by
  induction users with
  | nil => rfl
  | cons e rest ih =>
      simp only [applyNewUser]
      split
      · simpa using ih
      · split
        · split <;> simp
        · simp

theorem mergeLoop_length (existingUsers newUsers : List CirclesUser) :
    (mergeLoop existingUsers newUsers).1.length = existingUsers.length := by
  induction newUsers generalizing existingUsers with
  | nil => rfl
  | cons n ns ih =>
      simp only [mergeLoop]
      rw [ih, applyNewUser_length]

theorem applyNewUser_mem_of_no_match (users : List CirclesUser) (n e : CirclesUser)
    (he : e ∈ users) (hne : jsToLowerCase e.avatar ≠ jsToLowerCase n.avatar) :
    e ∈ (applyNewUser users n).1 := by
  induction users with
  | nil => cases he
  | cons x rest ih =>
      rcases List.mem_cons.mp he with hex | herest
      · subst hex
        simp only [applyNewUser]
        split
        · exact List.mem_cons_self _ _
        · split
          · exact absurd (by simpa using ‹(jsToLowerCase e.avatar == jsToLowerCase n.avatar) = true›) hne
          · exact List.mem_cons_self _ _
      · simp only [applyNewUser]
        split
        · exact List.mem_cons_of_mem _ (ih herest)
        · split
          · split
            · exact List.mem_cons_of_mem _ herest
            · exact List.mem_cons_of_mem _ herest
          · exact List.mem_cons_of_mem _ herest

theorem mergeLoop_mem_of_no_match (existingUsers newUsers : List CirclesUser)
    (e : CirclesUser) (he : e ∈ existingUsers)
    (hne : ∀ n ∈ newUsers, jsToLowerCase e.avatar ≠ jsToLowerCase n.avatar) :
    e ∈ (mergeLoop existingUsers newUsers).1 := by
  induction newUsers generalizing existingUsers with
  | nil => exact he
  | cons n ns ih =>
      simp only [mergeLoop]
      exact ih _ (applyNewUser_mem_of_no_match existingUsers n e he
        (hne n (List.mem_cons_self _ _)))
        (fun m hm => hne m (List.mem_cons_of_mem _ hm))

/-- C9: the incremental merge never shrinks the snapshot below the pre-run
record count, and an existing record whose case-folded identifier matches no
new observation is kept verbatim in the merged snapshot. -/
theorem c9_merge_nonregression (existingUsers newUsers : List CirclesUser) (now : Nat) :
    existingUsers.length ≤ (mergeAndUpdateUsers existingUsers newUsers now).1.totalCount ∧
    ∀ e ∈ existingUsers,
      (∀ n ∈ newUsers, jsToLowerCase e.avatar ≠ jsToLowerCase n.avatar) →
      e ∈ (mergeAndUpdateUsers existingUsers newUsers now).1.users := by
  constructor
  · simp only [mergeAndUpdateUsers, List.length_append]
    rw [mergeLoop_length]
    exact Nat.le_add_right _ _
  · intro e he hne
    simp only [mergeAndUpdateUsers]
    exact List.mem_append_left _ (mergeLoop_mem_of_no_match existingUsers newUsers e he hne)

/-- Closed witness for c9_merge_nonregression: one cached record and one
unrelated new observation; the cached record survives the merge and the total
does not decrease. -/
theorem c9_merge_nonregression_witness :
    1 ≤ (mergeAndUpdateUsers [⟨"0xAA", 2, 0, false, "registered", 5⟩]
          [⟨"0xBB", 3, 0, true, "verified", 6⟩] 7).1.totalCount ∧
    (⟨"0xAA", 2, 0, false, "registered", 5⟩ : CirclesUser) ∈
      (mergeAndUpdateUsers [⟨"0xAA", 2, 0, false, "registered", 5⟩]
          [⟨"0xBB", 3, 0, true, "verified", 6⟩] 7).1.users := by
  have h := c9_merge_nonregression [⟨"0xAA", 2, 0, false, "registered", 5⟩]
    [⟨"0xBB", 3, 0, true, "verified", 6⟩] 7
  refine ⟨h.1, h.2 _ (by decide) ?_⟩
  intro n hn
  have : n = (⟨"0xBB", 3, 0, true, "verified", 6⟩ : CirclesUser) := by
    simpa using hn
  subst this
  decide

/-- C6: on a non-empty page, queryRegisteredUsersWithTrustData returns the
block/tx/log triple of the last row as nextCursor exactly when the page holds
exactly limit rows, and no cursor when it holds fewer. -/
theorem c6_next_cursor (trustOf : String → Nat × Nat) (nowTs limit : Nat)
    (rows : List AvatarRow) (lastRow : AvatarRow)
    (hlast : rows.getLast? = some lastRow) :
    (rows.length = limit →
      (processRows trustOf nowTs limit rows).2 =
        some ⟨lastRow.blockNumber, lastRow.transactionIndex, lastRow.logIndex⟩) ∧
    (rows.length < limit →
      (processRows trustOf nowTs limit rows).2 = none) := by
  constructor
  · intro heq
    simp [processRows, hlast, heq]
  · intro hlt
    have hne : (rows.length == limit) = false := by
      simp [Nat.ne_of_lt hlt]
    simp [processRows, hlast, hne]

/-- Closed witness for c6_next_cursor: a page of two rows with limit 2 yields
the second row's triple as cursor; the same page with limit 3 yields none. -/
theorem c6_next_cursor_witness :
    (processRows (fun _ => (0, 0)) 9 2 [⟨"0xAA", 10, 1, 2, 5⟩, ⟨"0xBB", 8, 0, 1, 6⟩]).2 =
      some ⟨8, 0, 1⟩ ∧
    (processRows (fun _ => (0, 0)) 9 3 [⟨"0xAA", 10, 1, 2, 5⟩, ⟨"0xBB", 8, 0, 1, 6⟩]).2 =
      none := by
  refine ⟨?_, ?_⟩
  · exact (c6_next_cursor (fun _ => (0, 0)) 9 2 _ ⟨"0xBB", 8, 0, 1, 6⟩ (by decide)).1 (by decide)
  · exact (c6_next_cursor (fun _ => (0, 0)) 9 3 _ ⟨"0xBB", 8, 0, 1, 6⟩ (by decide)).2 (by decide)

/-- One page as the fetch loops see it: the enriched users and the optional
next cursor returned by queryRegisteredUsersWithTrustData. -/
abbrev Page := List CirclesUser × Option PaginationCursor

/-- One call to queryRegisteredUsersWithTrustData, as an oracle entry: either
the call threw (the catch branch of the loop body runs) or it returned a
page. -/
abbrev PageResult := Except Unit Page

/-- Whether an oracle entry models a thrown page fetch. -/
def isPageError : PageResult → Bool
  | .error _ => true
  | .ok _ => false

/-- The loop guard of fetchAndCacheCirclesUsers on the accumulated count:
maxUsers is Option Nat with none standing for the JS Infinity default. -/
def underMaxUsers (maxUsers : Option Nat) (len : Nat) : Bool :=
  match maxUsers with
  | none => true
  | some m => len < m

/-- The safety check of fetchAndCacheCirclesUsers after a batch: with a finite
cap, stop once the accumulated count reaches it. -/
def capReached (maxUsers : Option Nat) (len : Nat) : Bool :=
  match maxUsers with
  | none => false
  | some m => m ≤ len

/-- Paging loop of fetchAndCacheCirclesUsers over the page oracle. Errors and
empty pages bump the consecutive-empty counter and stop the loop at 3; a
non-empty page resets the counter, appends the users not already accumulated
under case-sensitive avatar equality, advances the cursor only when the page
carries a nextCursor, and stops on a missing nextCursor or a reached cap. An
exhausted oracle stands for the remote erroring from then on, which changes
neither the accumulator nor the cursor before the loop exits. -/
def fullLoop (maxUsers : Option Nat) :
    List PageResult → Option PaginationCursor → Nat → List CirclesUser →
    List CirclesUser × Option PaginationCursor
  | [], cursor, _, allUsers => (allUsers, cursor)
  | page :: rest, cursor, consecEmpty, allUsers =>
      if underMaxUsers maxUsers allUsers.length then
        match page with
        | .error _ =>
            if 3 ≤ consecEmpty + 1 then (allUsers, cursor)
            else fullLoop maxUsers rest cursor (consecEmpty + 1) allUsers
        | .ok (users, nextCur) =>
            if users.isEmpty then
              if 3 ≤ consecEmpty + 1 then (allUsers, cursor)
              else fullLoop maxUsers rest cursor (consecEmpty + 1) allUsers
            else
              let newOnes := users.filter
                (fun u => !(allUsers.any (fun e => e.avatar == u.avatar)))
              let allUsers2 := allUsers ++ newOnes
              match nextCur with
              | none => (allUsers2, cursor)
              | some c =>
                  if capReached maxUsers allUsers2.length then (allUsers2, some c)
                  else fullLoop maxUsers rest (some c) 0 allUsers2
      else (allUsers, cursor)

/-- Result record of fetchAndCacheCirclesUsers. -/
structure FetchResult where
  success : Bool
  count : Nat
  error : Option String
deriving Repr, DecidableEq

/-- Model of fetchAndCacheCirclesUsers (full refresh): run the paging loop from
no cursor, then write the snapshot (users truncated to maxUsers when the cap is
finite, totalCount the untruncated accumulated length) and the last-update
metadata, then write the cursor record only when the running cursor is set.
Page-fetch errors are absorbed inside the loop, so this path always reports
success with the accumulated count. -/
def fetchAndCacheCirclesUsers (st : CacheState) (pages : List PageResult)
    (maxUsers : Option Nat) (now : Nat) : FetchResult × CacheState :=
  let r := fullLoop maxUsers pages none 0 []
  let cacheData : CirclesUsersCache :=
    ⟨match maxUsers with
     | none => r.1
     | some m => r.1.take m,
     r.1.length, now⟩
  let lastUpdateData : CirclesUsersLastUpdate := ⟨now, r.1.length⟩
  let newCursor : Option CirclesUsersLastCursor :=
    match r.2 with
    | none => st.lastCursor
    | some c => some ⟨c.blockNumber, c.transactionIndex, c.logIndex, now, r.1.length⟩
  (⟨true, r.1.length, none⟩, ⟨some cacheData, some lastUpdateData, newCursor⟩)

/-- A cached record used by several concrete scenarios below. -/
def priorUser : CirclesUser := ⟨"0xAA", 2, 0, false, "registered", 5⟩

/-- A prior cache state holding priorUser, a matching last update and a stored
cursor. -/
def priorState : CacheState :=
  ⟨some ⟨[priorUser], 1, 5⟩, some ⟨5, 1⟩, some ⟨100, 1, 1, 5, 1⟩⟩

/-- C2 counterexample: a full fetch whose three page fetches all throw (the
error tolerance is exhausted) still returns success true with count 0 and
overwrites the previously good snapshot with an empty one, instead of
returning success false and leaving the cache untouched. -/
theorem c2_counterexample :
    (fetchAndCacheCirclesUsers priorState [.error (), .error (), .error ()] none 9).1 =
      ⟨true, 0, none⟩ ∧
    (fetchAndCacheCirclesUsers priorState [.error (), .error (), .error ()] none 9).2.data =
      some ⟨[], 0, 9⟩ ∧
    priorState.data = some ⟨[priorUser], 1, 5⟩ := by
  decide

theorem fullLoop_all_errors (maxUsers : Option Nat) (pages : List PageResult)
    (herr : ∀ p ∈ pages, isPageError p = true)
    (cursor : Option PaginationCursor) (consecEmpty : Nat) (allUsers : List CirclesUser) :
    fullLoop maxUsers pages cursor consecEmpty allUsers = (allUsers, cursor) := by
  induction pages generalizing consecEmpty with
  | nil => rfl
  | cons p rest ih =>
      have hp : isPageError p = true := herr p (List.mem_cons_self _ _)
      match p with
      | .ok _ => simp [isPageError] at hp
      | .error _ =>
          simp only [fullLoop]
          split
          · split
            · rfl
            · exact ih (fun q hq => herr q (List.mem_cons_of_mem _ hq)) _
          · rfl

/-- C2 amended: when every page fetch of a full run throws (the remote is
persistently failing), the run still ends by performing the snapshot write:
it returns success true with count 0, replaces the stored snapshot with an
empty one carrying a fresh last update, and leaves only the cursor key
unchanged; no failure result is produced on this path. -/
theorem c2_amended (st : CacheState) (pages : List PageResult)
    (herr : ∀ p ∈ pages, isPageError p = true) (maxUsers : Option Nat) (now : Nat) :
    (fetchAndCacheCirclesUsers st pages maxUsers now).1 = ⟨true, 0, none⟩ ∧
    (fetchAndCacheCirclesUsers st pages maxUsers now).2 =
      ⟨some ⟨[], 0, now⟩, some ⟨now, 0⟩, st.lastCursor⟩ := by
  have hloop : fullLoop maxUsers pages none 0 [] = ([], none) :=
    fullLoop_all_errors maxUsers pages herr none 0 []
  constructor
  · simp [fetchAndCacheCirclesUsers, hloop]
  · simp only [fetchAndCacheCirclesUsers, hloop]
    cases maxUsers <;> simp

/-- Closed witness for c2_amended at the concrete prior state and a three-error
oracle. -/
theorem c2_amended_witness :
    (fetchAndCacheCirclesUsers priorState [.error (), .error (), .error ()] none 9).1 =
      ⟨true, 0, none⟩ ∧
    (fetchAndCacheCirclesUsers priorState [.error (), .error (), .error ()] none 9).2 =
      ⟨some ⟨[], 0, 9⟩, some ⟨9, 0⟩, priorState.lastCursor⟩ :=
  c2_amended priorState [.error (), .error (), .error ()] (by decide) none 9

/-- Two case-variant observations of the same address, used against the dedup
claim. -/
def upperVariantUser : CirclesUser := ⟨"0xAB", 4, 0, true, "verified", 6⟩

/-- Lower-case variant of upperVariantUser's address. -/
def lowerVariantUser : CirclesUser := ⟨"0xab", 4, 0, true, "verified", 6⟩

/-- C3 counterexample: a full fetch over one page holding two case-variant
spellings of the same address stores both records, so the persisted snapshot
has two distinct records with the same case-folded identifier (the in-run
dedup filter compares avatars case-sensitively). -/
theorem c3_counterexample :
    (fetchAndCacheCirclesUsers ⟨none, none, none⟩
        [.ok ([upperVariantUser, lowerVariantUser], none)] none 9).2.data =
      some ⟨[upperVariantUser, lowerVariantUser], 2, 9⟩ ∧
    jsToLowerCase upperVariantUser.avatar = jsToLowerCase lowerVariantUser.avatar ∧
    upperVariantUser ≠ lowerVariantUser := by
  decide

theorem fullLoop_pairwise (maxUsers : Option Nat) (pages : List PageResult)
    (hpages : ∀ p ∈ pages, ∀ users nextCur, p = .ok (users, nextCur) →
      users.Pairwise (fun a b => a.avatar ≠ b.avatar))
    (cursor : Option PaginationCursor) (consecEmpty : Nat) (allUsers : List CirclesUser)
    (hacc : allUsers.Pairwise (fun a b => a.avatar ≠ b.avatar)) :
    (fullLoop maxUsers pages cursor consecEmpty allUsers).1.Pairwise
      (fun a b => a.avatar ≠ b.avatar) := by
  induction pages generalizing cursor consecEmpty allUsers with
  | nil => exact hacc
  | cons p rest ih =>
      have hrest : ∀ q ∈ rest, ∀ users nextCur, q = .ok (users, nextCur) →
          users.Pairwise (fun a b => a.avatar ≠ b.avatar) :=
        fun q hq => hpages q (List.mem_cons_of_mem _ hq)
      cases p with
      | error e =>
          simp only [fullLoop]
          split
          · split
            · exact hacc
            · exact ih hrest _ _ _ hacc
          · exact hacc
      | ok pg =>
          obtain ⟨users, nextCur⟩ := pg
          have husers : users.Pairwise (fun a b => a.avatar ≠ b.avatar) :=
            hpages _ (List.mem_cons_self _ _) users nextCur rfl
          have happ :
              (allUsers ++ users.filter
                (fun u => !(allUsers.any (fun e => e.avatar == u.avatar)))).Pairwise
                (fun a b => a.avatar ≠ b.avatar) := by
            rw [List.pairwise_append]
            refine ⟨hacc, husers.filter _, ?_⟩
            intro a ha b hb
            have hbmem := List.mem_filter.mp hb
            have hnotany : (allUsers.any (fun e => e.avatar == b.avatar)) = false := by
              simpa using hbmem.2
            intro hEq
            exact (List.any_eq_false.mp hnotany) a ha (by simp [hEq])
          simp only [fullLoop]
          split
          · split
            · split
              · exact hacc
              · exact ih hrest _ _ _ hacc
            · cases nextCur with
              | none => exact happ
              | some c =>
                  dsimp only
                  by_cases hcap : capReached maxUsers (allUsers ++ users.filter
                      (fun u => !(allUsers.any (fun e => e.avatar == u.avatar)))).length = true
                  · rw [if_pos hcap]
                    exact happ
                  · rw [if_neg hcap]
                    exact ih hrest _ _ _ happ
          · exact hacc

/-- C3 amended: after a full-fetch run whose pages each contain pairwise
case-sensitively distinct identifiers, no two records in the persisted
snapshot share the same case-sensitive identifier; uniqueness up to case
folding does not hold (the in-run dedup compares avatars case-sensitively and
there is no dedup within a page), and incremental runs do not deduplicate the
appended new users among themselves. -/
theorem c3_amended (st : CacheState) (pages : List PageResult)
    (maxUsers : Option Nat) (now : Nat)
    (hpages : ∀ p ∈ pages, ∀ users nextCur, p = .ok (users, nextCur) →
      users.Pairwise (fun a b => a.avatar ≠ b.avatar)) :
    ∀ cd, (fetchAndCacheCirclesUsers st pages maxUsers now).2.data = some cd →
      cd.users.Pairwise (fun a b => a.avatar ≠ b.avatar) := by
  intro cd hcd
  cases maxUsers with
  | none =>
      have hloop := fullLoop_pairwise none pages hpages none 0 [] (List.Pairwise.nil)
      simp only [fetchAndCacheCirclesUsers, Option.some.injEq] at hcd
      rw [← hcd]
      exact hloop
  | some m =>
      have hloop := fullLoop_pairwise (some m) pages hpages none 0 [] (List.Pairwise.nil)
      simp only [fetchAndCacheCirclesUsers, Option.some.injEq] at hcd
      rw [← hcd]
      exact hloop.sublist (List.take_sublist _ _)

/-- Closed witness for c3_amended: a two-page run with case-sensitively
distinct users per page yields the concrete snapshot below, whose users are
pairwise distinct by avatar. -/
theorem c3_amended_witness :
    (fetchAndCacheCirclesUsers ⟨none, none, none⟩
        [.ok ([upperVariantUser, priorUser], some ⟨8, 0, 1⟩),
         .ok ([lowerVariantUser], none)] none 9).2.data =
      some ⟨[upperVariantUser, priorUser, lowerVariantUser], 3, 9⟩ ∧
    ([upperVariantUser, priorUser, lowerVariantUser] : List CirclesUser).Pairwise
      (fun a b => a.avatar ≠ b.avatar) := by
  refine ⟨by decide,
    c3_amended ⟨none, none, none⟩
      [.ok ([upperVariantUser, priorUser], some ⟨8, 0, 1⟩),
       .ok ([lowerVariantUser], none)] none 9 ?_
      ⟨[upperVariantUser, priorUser, lowerVariantUser], 3, 9⟩ (by decide)⟩
  intro p hp users nextCur hpe
  rcases List.mem_cons.mp hp with h | h
  · subst h
    cases hpe
    decide
  · have : p = Except.ok ([lowerVariantUser], none) := by simpa using h
    subst this
    cases hpe
    decide

/-- C4 counterexample: a full fetch capped at maxUsers 1 that receives a single
page of two users stores a snapshot whose users list is truncated to one
record while totalCount records 2. -/
theorem c4_counterexample :
    (fetchAndCacheCirclesUsers ⟨none, none, none⟩
        [.ok ([upperVariantUser, priorUser], none)] (some 1) 9).2.data =
      some ⟨[upperVariantUser], 2, 9⟩ := by
  decide

/-- C4 amended: totalCount always equals the length of the accumulated user
list before truncation; consequently it equals the size of the stored users
collection in every snapshot written by mergeAndUpdateUsers, and in every
snapshot written by a full fetch whose accumulated count does not exceed the
finite cap (in particular always under the infinite default), while a full
fetch that overshoots a finite maxUsers stores users truncated to the cap but
keeps the untruncated totalCount. -/
theorem c4_amended (existingUsers newUsers : List CirclesUser)
    (st : CacheState) (pages : List PageResult) (maxUsers : Option Nat) (now : Nat)
    (hcap : ∀ m, maxUsers = some m → (fullLoop maxUsers pages none 0 []).1.length ≤ m) :
    ((mergeAndUpdateUsers existingUsers newUsers now).1.totalCount =
      (mergeAndUpdateUsers existingUsers newUsers now).1.users.length) ∧
    ∀ cd, (fetchAndCacheCirclesUsers st pages maxUsers now).2.data = some cd →
      cd.totalCount = cd.users.length := by
  constructor
  · rfl
  · intro cd hcd
    match hmu : maxUsers with
    | none =>
        simp only [fetchAndCacheCirclesUsers, hmu, Option.some.injEq] at hcd
        rw [← hcd]
    | some m =>
        have hle := hcap m rfl
        simp only [fetchAndCacheCirclesUsers, hmu, Option.some.injEq] at hcd
        rw [← hcd]
        simp only
        rw [List.take_of_length_le (hmu ▸ hle)]

/-- Closed witness for c4_amended: a merge of one existing and one new record,
and a capped full fetch that stays under its cap, both store a totalCount
equal to the stored list length. -/
theorem c4_amended_witness :
    ((mergeAndUpdateUsers [priorUser] [upperVariantUser] 9).1.totalCount =
      (mergeAndUpdateUsers [priorUser] [upperVariantUser] 9).1.users.length) ∧
    (⟨[upperVariantUser], 1, 9⟩ : CirclesUsersCache).totalCount =
      (⟨[upperVariantUser], 1, 9⟩ : CirclesUsersCache).users.length := by
  have h := c4_amended [priorUser] [upperVariantUser] ⟨none, none, none⟩
    [.ok ([upperVariantUser], none)] (some 5) 9
    (by intro m hm; cases hm; decide)
  exact ⟨h.1, h.2 ⟨[upperVariantUser], 1, 9⟩ (by decide)⟩

/-- C5 counterexample: a successful full fetch that observed one non-empty page
(a final short page, so the query returned no nextCursor) ends with no cursor
record written at all: the cursor key stays absent even though a page of rows
was observed. -/
theorem c5_counterexample :
    (fetchAndCacheCirclesUsers ⟨none, none, none⟩
        [.ok ([upperVariantUser], none)] none 9).1.success = true ∧
    (fetchAndCacheCirclesUsers ⟨none, none, none⟩
        [.ok ([upperVariantUser], none)] none 9).2.data =
      some ⟨[upperVariantUser], 1, 9⟩ ∧
    (fetchAndCacheCirclesUsers ⟨none, none, none⟩
        [.ok ([upperVariantUser], none)] none 9).2.lastCursor = none := by
  decide

theorem fetch_full_cursor_write (st : CacheState) (pages : List PageResult)
    (maxUsers : Option Nat) (now : Nat) :
    (fetchAndCacheCirclesUsers st pages maxUsers now).2.lastCursor =
      (match (fullLoop maxUsers pages none 0 []).2 with
       | none => st.lastCursor
       | some c => some ⟨c.blockNumber, c.transactionIndex, c.logIndex, now,
           (fullLoop maxUsers pages none 0 []).1.length⟩) := by
  cases h : (fullLoop maxUsers pages none 0 []).2 <;>
    simp [fetchAndCacheCirclesUsers, h]

/-- Result record of fetchAndCacheCirclesUsersIncremental. -/
structure IncrementalResult where
  success : Bool
  count : Nat
  newUsers : Nat
  updatedUsers : Nat
  error : Option String
deriving Repr, DecidableEq

/-- Paging loop of fetchAndCacheCirclesUsersIncremental over the page oracle.
Same tolerance scheme as the full loop, but the accumulated list holds only
users with no case-sensitive avatar match in the existing cache, the guard is
the new-user cap, and the running cursor is overwritten by every non-empty
page's nextCursor, including an absent one. -/
def incLoop (existingUsers : List CirclesUser) (maxNewUsers : Nat) :
    List PageResult → Option PaginationCursor → Nat → List CirclesUser →
    List CirclesUser × Option PaginationCursor
  | [], cursor, _, newUsers => (newUsers, cursor)
  | page :: rest, cursor, consecEmpty, newUsers =>
      if newUsers.length < maxNewUsers then
        match page with
        | .error _ =>
            if 3 ≤ consecEmpty + 1 then (newUsers, cursor)
            else incLoop existingUsers maxNewUsers rest cursor (consecEmpty + 1) newUsers
        | .ok (users, nextCur) =>
            if users.isEmpty then
              if 3 ≤ consecEmpty + 1 then (newUsers, cursor)
              else incLoop existingUsers maxNewUsers rest cursor (consecEmpty + 1) newUsers
            else
              let trulyNew := users.filter
                (fun u => !(existingUsers.any (fun e => e.avatar == u.avatar)))
              let newUsers2 := newUsers ++ trulyNew
              match nextCur with
              | none => (newUsers2, none)
              | some c => incLoop existingUsers maxNewUsers rest (some c) 0 newUsers2
      else (newUsers, cursor)

/-- The starting cursor of an incremental run, rebuilt from the stored cursor
record when one exists. -/
def startCursorOf (st : CacheState) : Option PaginationCursor :=
  match st.lastCursor with
  | none => none
  | some lc => some ⟨lc.blockNumber, lc.transactionIndex, lc.logIndex⟩

/-- Model of fetchAndCacheCirclesUsersIncremental: with no stored cursor and an
empty cache it falls back to a full fetch capped at maxNewUsers; otherwise it
runs the incremental loop from the stored cursor, merges through
mergeAndUpdateUsers (which writes the snapshot and last-update keys), rewrites
the cursor key only when the running cursor ends set, and reports the counts
the method returns (count is existing plus accumulated new, not the merged
snapshot size). -/
def fetchAndCacheCirclesUsersIncremental (st : CacheState) (pages : List PageResult)
    (maxNewUsers now : Nat) : IncrementalResult × CacheState :=
  let existingUsers := getCachedCirclesUsers st
  if st.lastCursor.isNone && existingUsers.isEmpty then
    let r := fetchAndCacheCirclesUsers st pages (some maxNewUsers) now
    (⟨r.1.success, r.1.count, r.1.count, 0, r.1.error⟩, r.2)
  else
    let r := incLoop existingUsers maxNewUsers pages (startCursorOf st) 0 []
    let m := mergeAndUpdateUsers existingUsers r.1 now
    let st2 : CacheState := ⟨some m.1, some m.2.1, st.lastCursor⟩
    let st3 : CacheState :=
      match r.2 with
      | none => st2
      | some c => ⟨st2.data, st2.lastUpdate,
          some ⟨c.blockNumber, c.transactionIndex, c.logIndex, now,
                existingUsers.length + r.1.length⟩⟩
    (⟨true, existingUsers.length + r.1.length, r.1.length, m.2.2, none⟩, st3)

/-- The claimed re-observation of priorUser with one more incoming trust. -/
def reobservedUser : CirclesUser := ⟨"0xAA", 3, 0, true, "verified", 6⟩

/-- C1: evaluation of the code at the failing input of scenario B. An
incremental run over a cache holding priorUser (incomingTrustCount 2,
registered) whose single page re-observes the same avatar with
incomingTrustCount 3 returns updatedUsers 0 (not 1) and leaves the stored
record unchanged at count 2, registered: the loop filters users whose avatar
already appears in the cache out of the new-user list before the merge, so the
trust-count refresh of mergeAndUpdateUsers never sees the re-observation. -/
theorem c1_reobserved_user_never_updated :
    (fetchAndCacheCirclesUsersIncremental priorState
        [.ok ([reobservedUser], none)] 5000 9).1 = ⟨true, 1, 0, 0, none⟩ ∧
    (fetchAndCacheCirclesUsersIncremental priorState
        [.ok ([reobservedUser], none)] 5000 9).2.data = some ⟨[priorUser], 1, 9⟩ ∧
    priorUser.incomingTrustCount = 2 ∧ priorUser.isVerified = false ∧
    reobservedUser.avatar = priorUser.avatar ∧
    reobservedUser.incomingTrustCount = 3 := by
  decide

/-- C5 amended: the resumption cursor is rewritten at the end of a successful
run exactly when the run's running cursor ends set. For a full fetch the
running cursor is the last nextCursor any page carried (none when every
observed page was a final short page, in which case the stored cursor record
is left untouched); when written it carries a fresh timestamp and the
accumulated user count. For an incremental run that does not fall back to a
full fetch, the running cursor starts at the stored position and is
overwritten by every non-empty page's nextCursor including an absent one, so a
run that reaches the end of the stream leaves the stored cursor unchanged;
when written, the record carries a fresh timestamp and the count of existing
plus newly accumulated users, which is not always the post-merge record
count. -/
theorem c5_amended (st : CacheState) (pages : List PageResult)
    (maxUsers : Option Nat) (maxNewUsers now : Nat)
    (hmain : (st.lastCursor.isNone && (getCachedCirclesUsers st).isEmpty) = false) :
    ((fetchAndCacheCirclesUsers st pages maxUsers now).2.lastCursor =
      (match (fullLoop maxUsers pages none 0 []).2 with
       | none => st.lastCursor
       | some c => some ⟨c.blockNumber, c.transactionIndex, c.logIndex, now,
           (fullLoop maxUsers pages none 0 []).1.length⟩)) ∧
    ((fetchAndCacheCirclesUsersIncremental st pages maxNewUsers now).2.lastCursor =
      (match (incLoop (getCachedCirclesUsers st) maxNewUsers pages (startCursorOf st) 0 []).2 with
       | none => st.lastCursor
       | some c => some ⟨c.blockNumber, c.transactionIndex, c.logIndex, now,
           (getCachedCirclesUsers st).length +
             (incLoop (getCachedCirclesUsers st) maxNewUsers pages (startCursorOf st) 0 []).1.length⟩)) := by
  refine ⟨fetch_full_cursor_write st pages maxUsers now, ?_⟩
  cases h : (incLoop (getCachedCirclesUsers st) maxNewUsers pages (startCursorOf st) 0 []).2 <;>
    simp [fetchAndCacheCirclesUsersIncremental, hmain, h]

/-- Closed witness for c5_amended: at the concrete prior state (stored cursor
present) with a single short final page, the full run leaves the stored cursor
record unchanged and the incremental run does as well. -/
theorem c5_amended_witness :
    ((fetchAndCacheCirclesUsers priorState [.ok ([upperVariantUser], none)] none 9).2.lastCursor =
      (match (fullLoop none [.ok ([upperVariantUser], none)] none 0 []).2 with
       | none => priorState.lastCursor
       | some c => some ⟨c.blockNumber, c.transactionIndex, c.logIndex, 9,
           (fullLoop none [.ok ([upperVariantUser], none)] none 0 []).1.length⟩)) ∧
    ((fetchAndCacheCirclesUsersIncremental priorState
        [.ok ([upperVariantUser], none)] 5000 9).2.lastCursor =
      (match (incLoop (getCachedCirclesUsers priorState) 5000
          [.ok ([upperVariantUser], none)] (startCursorOf priorState) 0 []).2 with
       | none => priorState.lastCursor
       | some c => some ⟨c.blockNumber, c.transactionIndex, c.logIndex, 9,
           (getCachedCirclesUsers priorState).length +
             (incLoop (getCachedCirclesUsers priorState) 5000
               [.ok ([upperVariantUser], none)] (startCursorOf priorState) 0 []).1.length⟩)) :=
  c5_amended priorState [.ok ([upperVariantUser], none)] none 5000 9 (by decide)

/-- Result record of refreshCirclesUsersCache; mode is a String in the model
because the source escapes its own declared union by casting the string
unknown into it on the early error path. -/
structure RefreshResult where
  success : Bool
  count : Nat
  mode : String
  newUsers : Option Nat
  updatedUsers : Option Nat
  error : Option String
deriving Repr, DecidableEq

/-- Model of refreshCirclesUsersCache: auto mode resolves to incremental
exactly when a cursor record is stored and the cached users are non-empty,
then dispatches to the matching fetch. The only statement inside the try block
that can throw is the cursor read of the auto branch (both fetch methods catch
their own errors), modelled by autoReadThrows; the catch block maps an auto
mode to the mode string unknown. -/
def refreshCirclesUsersCache (st : CacheState) (pages : List PageResult)
    (mode : String) (maxUsers : Nat) (autoReadThrows : Bool) (now : Nat) :
    RefreshResult × CacheState :=
  if mode == "auto" && autoReadThrows then
    (⟨false, 0, "unknown", none, none,
      some "Failed to refresh Circles users cache"⟩, st)
  else
    let mode2 := if mode == "auto" then
        (if st.lastCursor.isSome && !(getCachedCirclesUsers st).isEmpty
         then "incremental" else "full")
      else mode
    if mode2 == "incremental" then
      let r := fetchAndCacheCirclesUsersIncremental st pages maxUsers now
      (⟨r.1.success, r.1.count, "incremental", some r.1.newUsers,
        some r.1.updatedUsers, r.1.error⟩, r.2)
    else
      let r := fetchAndCacheCirclesUsers st pages (some maxUsers) now
      (⟨r.1.success, r.1.count, "full", none, none, r.1.error⟩, r.2)

/-- C10: when refreshCirclesUsersCache is called in auto mode and the cursor
read throws before the auto resolution completes, the returned result has
success false, count 0, a populated error string and the mode string unknown,
which is neither of the two values of the declared mode union; the cache state
is untouched. -/
theorem c10_auto_error_mode_unknown (st : CacheState) (pages : List PageResult)
    (maxUsers now : Nat) :
    (refreshCirclesUsersCache st pages "auto" maxUsers true now).1 =
      ⟨false, 0, "unknown", none, none, some "Failed to refresh Circles users cache"⟩ ∧
    (refreshCirclesUsersCache st pages "auto" maxUsers true now).1.error.isSome = true ∧
    (refreshCirclesUsersCache st pages "auto" maxUsers true now).2 = st ∧
    ("unknown" : String) ≠ "full" ∧ ("unknown" : String) ≠ "incremental" := by
  refine ⟨rfl, rfl, rfl, by decide, by decide⟩

end CirclesUsers
